import Mathlib

/-!
Shallow embedding of `src/civitai_model_manager/components/details.py`
(civitai-cli-manager): a fetch / normalize / render pipeline for model
metadata.  Parsed JSON values are modelled by the inductive `JSON`
(Python `None` and JSON `null` are both `JSON.null`); Python exceptions
are modelled with `Except PyErr`; the network is an oracle
`Net : String → ReqResult`; terminal output is a list of `Event`s.

The helper module `utils.py` (`safe_get`, `safe_url`, `convert_kb`) and
`helpers.py` (`feedback_message`, table builders) are not part of the
sources; those few definitions are modelled from the specification and
are marked as such in their doc comments.  Everything else is translated
directly from `details.py`.
-/

namespace Civitai

/-- A parsed JSON value.  `null` also stands for Python `None` (they are
the same object after `response.json()`).  Numbers are integers: no claim
depends on fractional values. -/
inductive JSON where
  | null
  | bool (b : Bool)
  | num (n : Int)
  | str (s : String)
  | arr (elems : List JSON)
  | obj (fields : List (String × JSON))

/-- A Python dict holding parsed JSON, as an association list (first
binding wins on lookup). -/
abbrev Dict := List (String × JSON)

/-- Python `d[k]` lookup, first matching key. -/
def dlookup (k : String) : Dict → Option JSON
  | [] => none
  | (k₁, v) :: rest => if k₁ = k then some v else dlookup k rest

/-- Python `k in d`. -/
def dhas (fs : Dict) (k : String) : Bool :=
  (dlookup k fs).isSome

/-- Python `d.get(k, default)`. -/
def dgetD (fs : Dict) (k : String) (d : JSON) : JSON :=
  match dlookup k fs with
  | some v => v
  | none => d

/-- Python truthiness of a parsed JSON value. -/
def JSON.truthy : JSON → Bool
  | .null => false
  | .bool b => b
  | .num n => n != 0
  | .str s => s ≠ ""
  | .arr xs => !xs.isEmpty
  | .obj fs => !fs.isEmpty

/-- Truthiness of an optional value (`none` models a Python `None`
returned by a helper). -/
def optTruthy : Option JSON → Bool
  | none => false
  | some j => j.truthy

/-- One step of a nested-lookup path: a dict key or a list index. -/
inductive Key where
  | s (k : String)
  | i (n : Nat)

/-- Modelled from the spec: `utils.safe_get`, the "safe lookup" helper —
"nested field access that returns a default instead of failing when
intermediate keys are absent".  A string key descends into an object, a
numeric key indexes a list; any missing key, out-of-range index or shape
mismatch yields the default.  The call sites in `details.py` pass the
default explicitly except `safe_get(data, ["model", "name"])`, which is
modelled as default `None` (= `JSON.null`). -/
def safe_get (j : JSON) (path : List Key) (d : JSON) : JSON :=
  match path, j with
  | [], _ => j
  | .s k :: rest, .obj fs =>
    match dlookup k fs with
    | some v => safe_get v rest d
    | none => d
  | .i n :: rest, .arr xs =>
    match xs[n]? with
    | some v => safe_get v rest d
    | none => d
  | _ :: _, _ => d

/-- A lookup path is broken in `j` when walking it hits a missing key,
an out-of-range index, or a value of the wrong shape — exactly the cases
in which `safe_get` returns its default. -/
def pathBroken (j : JSON) (path : List Key) : Bool :=
  match path, j with
  | [], _ => false
  | .s k :: rest, .obj fs =>
    match dlookup k fs with
    | some v => pathBroken v rest
    | none => true
  | .i n :: rest, .arr xs =>
    match xs[n]? with
    | some v => pathBroken v rest
    | none => true
  | _ :: _, _ => true

mutual
/-- Python `repr` of a parsed JSON value (used inside list/dict
rendering). -/
def pyRepr : JSON → String
  | .null => "None"
  | .bool true => "True"
  | .bool false => "False"
  | .num n => toString n
  | .str s => "'" ++ s ++ "'"
  | .arr xs => "[" ++ pyReprList xs ++ "]"
  | .obj fs => "\x7b" ++ pyReprFields fs ++ "\x7d"
/-- Comma-separated reprs of list elements. -/
def pyReprList : List JSON → String
  | [] => ""
  | [x] => pyRepr x
  | x :: xs => pyRepr x ++ ", " ++ pyReprList xs
/-- Comma-separated reprs of dict entries. -/
def pyReprFields : List (String × JSON) → String
  | [] => ""
  | [(k, v)] => "'" ++ k ++ "': " ++ pyRepr v
  | (k, v) :: fs => "'" ++ k ++ "': " ++ pyRepr v ++ ", " ++ pyReprFields fs
end

/-- Python `str()` of a parsed JSON value, as used by f-string
interpolation. -/
def pyStr : JSON → String
  | .str s => s
  | j => pyRepr j

/-- Value of a digit character. -/
def digitVal (c : Char) : Nat := c.toNat - 48

/-- Digits of a Python integer literal after the first digit: single
underscores are allowed between digits, not doubled and not trailing. -/
def digitsCore (acc : Nat) : List Char → Option Nat
  | [] => some acc
  | '_' :: c :: rest =>
    if c.isDigit then digitsCore (acc * 10 + digitVal c) rest else none
  | c :: rest =>
    if c.isDigit then digitsCore (acc * 10 + digitVal c) rest else none

/-- A nonempty digit string starting with a digit. -/
def digitsStart : List Char → Option Nat
  | [] => none
  | c :: rest => if c.isDigit then digitsCore (digitVal c) rest else none

/-- Surrounding ASCII whitespace stripped from a character list. -/
def stripWS (cs : List Char) : List Char :=
  ((cs.dropWhile Char.isWhitespace).reverse.dropWhile Char.isWhitespace).reverse

/-- Python `int(s)` on a decimal string: surrounding whitespace is
stripped, an optional sign precedes the digits; `none` models the
`ValueError` raised on anything else. -/
def pyIntParse (s : String) : Option Int :=
  match stripWS s.toList with
  | '+' :: rest => (digitsStart rest).map Int.ofNat
  | '-' :: rest => (digitsStart rest).map (fun n => -(n : Int))
  | rest => (digitsStart rest).map Int.ofNat

/-- A Python exception class, as far as the claims need to distinguish
them. -/
inductive PyErr where
  | indexError
  | attributeError
  | typeError
  | keyError
  deriving DecidableEq, Repr

/-- Python `x[0]` on a parsed JSON value: indexes a list (IndexError when
empty), takes the first character of a nonempty string, KeyError on a
dict, TypeError otherwise. -/
def subscript0 : JSON → Except PyErr JSON
  | .arr [] => .error .indexError
  | .arr (x :: _) => .ok x
  | .str s => if s.isEmpty then .error .indexError else .ok (.str (String.mk [s.toList.headD ' ']))
  | .obj _ => .error .keyError
  | _ => .error .typeError

/-- Python `x.get(k, default)`: only dicts have `.get`; every other value
raises AttributeError. -/
def pyget (j : JSON) (k : String) (d : JSON) : Except PyErr JSON :=
  match j with
  | .obj fs => .ok (dgetD fs k d)
  | _ => .error .attributeError

/-- Python iteration `for v in j`: lists yield their elements, dicts
their keys, strings their characters; other values raise TypeError. -/
def pyIterate : JSON → Except PyErr (List JSON)
  | .arr xs => .ok xs
  | .obj fs => .ok (fs.map (fun kv => JSON.str kv.1))
  | .str s => .ok (s.toList.map (fun c => JSON.str (String.mk [c])))
  | _ => .error .typeError

/-- Left-to-right evaluation of a list comprehension / for-loop body:
the first exception aborts the whole loop. -/
def comprehend (f : JSON → Except PyErr α) : List JSON → Except PyErr (List α)
  | [] => .ok []
  | v :: vs =>
    match f v with
    | .error e => .error e
    | .ok w =>
      match comprehend f vs with
      | .error e => .error e
      | .ok ws => .ok (w :: ws)

/-- One row of the normalizer's `versions` list. -/
structure VersionSummary where
  id : JSON
  name : JSON
  base_model : JSON
  download_url : JSON
  images : JSON
  file : JSON

/-- The normalizer's `metadata` sub-record. -/
structure Metadata where
  stats : String
  size : String
  format : JSON
  file : JSON

/-- The normalized model record returned by `process_model_data`.
`nsfw` keeps only the rendered text of the `rich` `Text` object. -/
structure ModelRecord where
  id : JSON
  parent_id : JSON
  parent_name : JSON
  name : JSON
  description : JSON
  type : JSON
  base_model : JSON
  download_url : JSON
  tags : JSON
  creator : JSON
  trainedWords : JSON
  nsfw : String
  metadata : Metadata
  versions : List VersionSummary
  images : JSON

/-- Modelled from the spec: `utils.convert_kb`, kilobytes to a
human-readable size — "0 KB → a defined zero-representation; a large
value (e.g., 2,048 KB) → a human-readable size in the next unit up; a
missing value → neutral/empty output". -/
def convert_kb : JSON → String
  | .num n =>
    if n ≥ 1048576 then toString (n / 1048576) ++ " GB"
    else if n ≥ 1024 then toString (n / 1024) ++ " MB"
    else toString n ++ " KB"
  | _ => ""

/-- The body of the `versions` list comprehension in
`process_model_data` (lines 76–83), one entry `v` at a time.  For a dict
entry the `.get` calls cannot fail, so the failure points are the `[0]`
subscripts, in source order (`downloadUrl` first, then `url`); the
second `v.get("files", [{}])[0]` recomputes the same pure value and is
therefore reused.  A non-dict entry fails on its first `.get` with
AttributeError. -/
def version_summary_of (v : JSON) : Except PyErr VersionSummary :=
  match v with
  | .obj fs =>
    (match subscript0 (dgetD fs "files" (.arr [.obj []])) with
     | .error e => .error e
     | .ok f0 =>
       match pyget f0 "downloadUrl" (.str "") with
       | .error e => .error e
       | .ok durl =>
         match subscript0 (dgetD fs "images" (.arr [.obj []])) with
         | .error e => .error e
         | .ok i0 =>
           match pyget i0 "url" (.str "") with
           | .error e => .error e
           | .ok iurl =>
             match pyget f0 "name" (.str "") with
             | .error e => .error e
             | .ok fname =>
               .ok ⟨dgetD fs "id" (.str ""), dgetD fs "name" (.str ""),
                    dgetD fs "baseModel" (.str ""), durl, iurl, fname⟩)
  | _ => .error .attributeError

/-- Total spec-side `get`: like `pyget` but with the default instead of
an exception on non-dict values.  Used only by the spec-side summary
below. -/
def jget : JSON → String → JSON → JSON
  | .obj fs, k, d => dgetD fs k d
  | _, _, d => d

/-- The value bound to key `k` when `v` is an object, `none`
otherwise. -/
def jfield (v : JSON) (k : String) : Option JSON :=
  match v with
  | .obj fs => dlookup k fs
  | _ => none

/-- First element of a present list, or the empty placeholder object
when the key was absent (the claim's "empty placeholder object standing
in when the files or images list is absent"). -/
def first_or_placeholder : Option JSON → JSON
  | some (.arr (x :: _)) => x
  | _ => .obj []

/-- Follows the spec claim's wording, for comparison with the code: a
VersionSummary takes id/name/baseModel from the entry, its download URL
and file name from the first element of the entry's `files` list, and
its image URL from the first element of the entry's `images` list, an
empty placeholder object standing in when the list is absent. -/
def spec_version_summary (v : JSON) : VersionSummary :=
  ⟨jget v "id" (.str ""),
   jget v "name" (.str ""),
   jget v "baseModel" (.str ""),
   jget (first_or_placeholder (jfield v "files")) "downloadUrl" (.str ""),
   jget (first_or_placeholder (jfield v "images")) "url" (.str ""),
   jget (first_or_placeholder (jfield v "files")) "name" (.str "")⟩

/-- A `files`/`images` binding the comprehension body survives: either
the key is absent (the `[{}]` placeholder applies) or it holds a
non-empty list whose first element is an object. -/
def okFirst : Option JSON → Bool
  | none => true
  | some (.arr (.obj _ :: _)) => true
  | some _ => false

/-- A `modelVersions` entry on which the comprehension body cannot
raise: an object whose `files` and `images` keys, when present, hold
non-empty lists headed by an object.  Any entry violating this does so
through *present* structure, never through a missing key. -/
def goodEntry : JSON → Bool
  | .obj fs => okFirst (dlookup "files" fs) && okFirst (dlookup "images" fs)
  | _ => false

/-- The input shapes on which the normalizer cannot raise: version
shapes skip the comprehension entirely; model shapes need every present
`modelVersions` entry to be good (an absent `modelVersions` key is
always fine). -/
def entriesGood (fs : Dict) : Prop :=
  dhas fs "model" = true ∨
    match dlookup "modelVersions" fs with
    | none => True
    | some (.arr vs) => ∀ v ∈ vs, goodEntry v = true
    | some _ => False

/-- The `stats` / `files` lookup paths of `get_metadata`. -/
def stats_path (is_version : Bool) : List Key :=
  if !is_version then [.s "stats"] else [.s "model", .s "stats"]

/-- The file-metadata lookup path of `get_metadata`. -/
def files_path (is_version : Bool) : List Key :=
  if !is_version then [.s "modelVersions", .i 0, .s "files", .i 0] else [.s "files", .i 0]

/-- `get_metadata` from `details.py` (lines 103–113). -/
def get_metadata (data : JSON) (is_version : Bool) : Metadata :=
  { stats :=
      pyStr (safe_get data (stats_path is_version ++ [.s "downloadCount"]) (.str "")) ++ " downloads, " ++
      pyStr (safe_get data (stats_path is_version ++ [.s "thumbsUpCount"]) (.str "")) ++ " likes, " ++
      pyStr (safe_get data (stats_path is_version ++ [.s "thumbsDownCount"]) (.str "")) ++ " dislikes",
    size := convert_kb (safe_get data (files_path is_version ++ [.s "sizeKB"]) (.str "")),
    format := safe_get data (files_path is_version ++ [.s "metadata", .s "format"]) (.str ".safetensors"),
    file := safe_get data (files_path is_version ++ [.s "name"]) (.str "") }

/-- The dict literal returned by `process_model_data` (lines 85–101),
given the already-computed `versions` list. -/
def mk_record (fs : Dict) (versions : List VersionSummary) : ModelRecord :=
  let is_version := dhas fs "model"
  let data : JSON := .obj fs
  { id := dgetD fs "id" (.str ""),
    parent_id := if is_version then dgetD fs "modelId" .null else .null,
    parent_name := if is_version then safe_get data [.s "model", .s "name"] .null else .null,
    name := dgetD fs "name" (.str ""),
    description := dgetD fs "description" (.str ""),
    type := safe_get data (if is_version then [.s "model", .s "type"] else [.s "type"]) (.str ""),
    base_model := dgetD fs "baseModel" (.str ""),
    download_url := safe_get data (if !is_version then [.s "modelVersions", .i 0, .s "downloadUrl"] else [.s "downloadUrl"]) (.str ""),
    tags := dgetD fs "tags" (.arr []),
    creator := safe_get data [.s "creator", .s "username"] (.str ""),
    trainedWords := safe_get data (if !is_version then [.s "modelVersions", .i 0, .s "trainedWords"] else [.s "trainedWords"]) (.str "None"),
    nsfw := if (dgetD fs "nsfw" (.bool false)).truthy then "Yes" else "No",
    metadata := get_metadata data is_version,
    versions := versions,
    images := safe_get data (if !is_version then [.s "modelVersions", .i 0, .s "images"] else [.s "images"]) (.arr []) }

/-- The `versions` conditional comprehension of `process_model_data`
(lines 76–83): for a version-shaped input the conditional expression
skips the comprehension entirely (so it can never raise there);
otherwise `data.get("modelVersions", [])` is iterated. -/
def versions_of (fs : Dict) : Except PyErr (List VersionSummary) :=
  if dhas fs "model" then .ok []
  else
    match pyIterate (dgetD fs "modelVersions" (.arr [])) with
    | .error e => .error e
    | .ok xs => comprehend version_summary_of xs

/-- `process_model_data` from `details.py` (lines 73–101).  The
`versions` list is evaluated first (the only part that can raise); the
returned dict is `mk_record`.  A non-dict argument fails on
`'model' in data` (TypeError for non-iterables) or on the first `.get`
(AttributeError). -/
def process_model_data (data : JSON) : Except PyErr ModelRecord :=
  match data with
  | .obj fs =>
    (match versions_of fs with
     | .error e => .error e
     | .ok versions => .ok (mk_record fs versions))
  | .arr _ => .error .attributeError
  | .str _ => .error .attributeError
  | _ => .error .typeError

/-- Outcome of one `requests.get`: either the client raises
(`RequestException`: connection failure etc.), or a response arrives
with a status code and a body that either parses to JSON (`some`) or is
malformed (`none`). -/
inductive ReqResult where
  | netErr
  | resp (status : Nat) (body : Option JSON)

/-- The network, as an oracle from URL to outcome. -/
abbrev Net := String → ReqResult

/-- A terminal side effect: a `feedback_message` line (message and
style), or a rendered table (title, column headers, stringified rows).
Tables are modelled from the spec's description of the `helpers`
module. -/
inductive Event where
  | feedback (msg level : String)
  | table (title : String) (headers : List String) (rows : List (List String))

/-- Project the feedback messages (message, level) out of an event
list. -/
def feedbacks (evs : List Event) : List (String × String) :=
  evs.filterMap (fun e => match e with
    | .feedback m l => some (m, l)
    | .table _ _ _ => none)

/-- The error message emitted by `make_request`'s exception handler:
`f"Failed to get data from {url}: {e}"`. -/
def request_fail_msg (url cause : String) : String :=
  "Failed to get data from " ++ url ++ ": " ++ cause

/-- Python `{**a, **b}`: keys of `a` in order, with `b`'s value whenever
`b` also binds the key, followed by the keys only `b` has, in `b`'s
order.  The second dict wins on every collision. -/
def dictMerge (a b : Dict) : Dict :=
  a.map (fun kv =>
    match dlookup kv.1 b with
    | some w => (kv.1, w)
    | none => kv) ++ b.filter (fun kv => !dhas a kv.1)

/-- `make_request` from `details.py` (lines 57–70).  `raise_for_status`
raises `HTTPError` exactly for statuses 400–599; a 404 is explicitly
passed through to JSON parsing instead.  `RequestException` covers the
connection error, the `HTTPError` and the `JSONDecodeError`, so every
failure becomes a feedback line and a `None` result. -/
def make_request (net : Net) (url : String) : Option JSON × List Event :=
  match net url with
  | .netErr => (none, [.feedback (request_fail_msg url "ConnectionError") "error"])
  | .resp s b =>
    if s ≠ 404 ∧ 400 ≤ s ∧ s < 600 then
      (none, [.feedback (request_fail_msg url ("HTTPError " ++ toString s)) "error"])
    else
      match b with
      | some j => (some j, [])
      | none => (none, [.feedback (request_fail_msg url "JSONDecodeError") "error"])

/-- `fetch_model_data` from `details.py` (lines 44–45). -/
def fetch_model_data (net : Net) (url : String) (model_id : Int) : Option JSON × List Event :=
  make_request net (url ++ "/" ++ toString model_id)

/-- `fetch_version_data` from `details.py` (lines 48–54).  A truthy
non-dict version body raises AttributeError on `.get('modelId')`; a
truthy non-dict parent body raises TypeError in the `{**v, **p}`
merge. -/
def fetch_version_data (net : Net) (versions_url models_url : String) (model_id : Int) :
    Except PyErr (Option JSON) × List Event :=
  let r₁ := make_request net (versions_url ++ "/" ++ toString model_id)
  match r₁.1 with
  | none => (.ok none, r₁.2)
  | some v =>
    if v.truthy then
      match v with
      | .obj vfs =>
        let r₂ := make_request net (models_url ++ "/" ++ pyStr (dgetD vfs "modelId" .null))
        match r₂.1 with
        | none => (.ok none, r₁.2 ++ r₂.2)
        | some p =>
          if p.truthy then
            match p with
            | .obj pfs => (.ok (some (.obj (dictMerge vfs pfs))), r₁.2 ++ r₂.2)
            | _ => (.error .typeError, r₁.2 ++ r₂.2)
          else (.ok none, r₁.2 ++ r₂.2)
      | _ => (.error .attributeError, r₁.2)
    else (.ok none, r₁.2)

/-- `get_model_details` from `details.py` (lines 32–41). -/
def get_model_details (net : Net) (models_url versions_url : String) (model_id : Int) :
    Except PyErr (Option ModelRecord) × List Event :=
  if model_id = 0 then
    (.ok none, [.feedback "Please provide a valid model ID." "error"])
  else
    let r₁ := fetch_model_data net models_url model_id
    let r₂ : Except PyErr (Option JSON) × List Event :=
      if optTruthy r₁.1 then (.ok r₁.1, [])
      else fetch_version_data net versions_url models_url model_id
    match r₂.1 with
    | .error e => (.error e, r₁.2 ++ r₂.2)
    | .ok m =>
      if optTruthy m then
        match m with
        | some j =>
          (match process_model_data j with
           | .ok r => (.ok (some r), r₁.2 ++ r₂.2)
           | .error e => (.error e, r₁.2 ++ r₂.2))
        | none => (.ok none, r₁.2 ++ r₂.2)
      else (.ok none, r₁.2 ++ r₂.2)

/-- Modelled from the spec: `utils.safe_url` — "URLs are rendered as
clickable/safe hyperlinks or, when empty, a neutral placeholder". -/
def safe_url (j : JSON) : String :=
  if j.truthy then "[link]" ++ pyStr j else "N/A"

/-- Modelled from the spec: `html2text`'s HTML-to-plain-text conversion
of the description.  The exact rendering is a presentation concern with
no contract in the spec; only the fact that it consumes a string
matters here. -/
def h2t_handle (s : String) : String := s

/-- The attributes-table rows of `print_model_details` (lines 118–126),
stringified at the rendering boundary. -/
def attr_rows (md : ModelRecord) : List (List String) :=
  [["Model ID", pyStr md.id],
   ["Name", pyStr md.name],
   ["Type", pyStr md.type],
   ["Tags", pyStr md.tags],
   ["Creator", pyStr md.creator],
   ["NSFW", md.nsfw],
   ["Size", md.metadata.size]]

/-- The variant warning of `print_model_details` (line 160). -/
def variant_msg (md : ModelRecord) : String :=
  pyStr md.name ++ " is a variant of " ++ pyStr md.parent_name ++ " // Model ID: " ++ pyStr md.parent_id

/-- The no-images warning of `print_model_details` (line 163). -/
def no_images_msg (md : ModelRecord) : String :=
  "No images available for model " ++ pyStr md.name ++ "."

/-- The no-versions warning of `print_model_details` (line 166). -/
def no_versions_msg (md : ModelRecord) : String :=
  "No versions available for model " ++ pyStr md.name ++ "."

/-- The three trailing `feedback_message` calls of `print_model_details`
(lines 159–166), in source order: each condition is a Python truthiness
test. -/
def warning_events (md : ModelRecord) : List Event :=
  (if md.parent_id.truthy then [.feedback (variant_msg md) "warning"] else []) ++
  (if !md.images.truthy then [.feedback (no_images_msg md) "warning"] else []) ++
  (if md.versions.isEmpty && !md.parent_id.truthy then [.feedback (no_versions_msg md) "warning"] else [])

/-- One row of the images table (line 156):
`(str(image.get("nsfwLevel")), safe_url(image.get("url")))`; a non-dict
element raises AttributeError on `.get`. -/
def image_row (im : JSON) : Except PyErr (List String) := do
  let lvl ← pyget im "nsfwLevel" .null
  let u ← pyget im "url" .null
  pure [pyStr lvl, safe_url u]

/-- The description table of `print_model_details` (lines 129–132): the
raw description is fed to `html2text`, which requires a string
(AttributeError otherwise); skipped when the flag is off. -/
def desc_table_events (md : ModelRecord) (desc : Bool) : Except PyErr (List Event) :=
  if desc then
    match md.description with
    | .str s => .ok [.table "Description" ["Description"] [[h2t_handle s]]]
    | _ => .error .attributeError
  else .ok []

/-- The versions table of `print_model_details` (lines 134–151),
rendered only when the list is non-empty. -/
def version_table_events (md : ModelRecord) : List Event :=
  if md.versions.isEmpty then []
  else [.table "" ["Version ID", "Name", "Base Model", "Download URL", "Images"]
         (md.versions.map (fun v =>
           [pyStr v.id, pyStr v.name, pyStr v.base_model, safe_url v.download_url, safe_url v.images]))]

/-- The images table of `print_model_details` (lines 153–157): rendered
when the flag is on and the raw `images` value is truthy, iterating that
value. -/
def image_table_events (md : ModelRecord) (images : Bool) : Except PyErr (List Event) :=
  if images && md.images.truthy then
    match pyIterate md.images with
    | .error e => .error e
    | .ok ims =>
      match comprehend image_row ims with
      | .error e => .error e
      | .ok rows => .ok [.table "" ["NSFW Lvl", "URL"] rows]
  else .ok []

/-- `print_model_details` from `details.py` (lines 116–166), with the
terminal output reified as the returned event list, in emission order:
attributes table, description table, versions table, images table, then
the three warnings. -/
def print_model_details (md : ModelRecord) (desc images : Bool) : Except PyErr (List Event) :=
  match desc_table_events md desc with
  | .error e => .error e
  | .ok descEvs =>
    match image_table_events md images with
    | .error e => .error e
    | .ok imgEvs =>
      .ok ([.table "" ["Attributes", "Values"] (attr_rows md)] ++
        descEvs ++ version_table_events md ++ imgEvs ++ warning_events md)

/-- `get_model_details_cli` from `details.py` (lines 169–182): parse the
identifier with `int()` (ValueError is the only exception the `try`
block catches), run the pipeline, and report when nothing was found.
Any other exception propagates. -/
def get_model_details_cli (net : Net) (identifier : String) (desc images : Bool)
    (models_url versions_url : String) : Except PyErr Unit × List Event :=
  match pyIntParse identifier with
  | none => (.ok (), [.feedback "Invalid model ID. Please enter a valid number." "error"])
  | some model_id =>
    let r := get_model_details net models_url versions_url model_id
    match r.1 with
    | .error e => (.error e, r.2)
    | .ok (some md) =>
      match print_model_details md desc images with
      | .error e => (.error e, r.2)
      | .ok pevs => (.ok (), r.2 ++ pevs)
    | .ok none =>
      (.ok (), r.2 ++ [.feedback ("No model found with ID: " ++ identifier) "error"])

/-!
Concrete fixtures (networks and inputs) used by the witnesses and
counterexamples below.
-/

/-- A concrete `modelVersions` entry carrying files and images. -/
def c3e1 : JSON :=
  .obj [("id", .num 1),
        ("files", .arr [.obj [("downloadUrl", .str "u1"), ("name", .str "f1")]]),
        ("images", .arr [.obj [("url", .str "i1")]])]

/-- A concrete `modelVersions` entry carrying neither files nor
images. -/
def c3e2 : JSON := .obj [("id", .num 2)]

/-- A concrete model-shaped input with two version entries. -/
def c3fs : Dict := [("modelVersions", .arr [c3e1, c3e2])]

/-- A concrete network for the C1 scenario: the version lookup returns
a body whose `name` is `'vname'`, the parent lookup a body whose `name`
is `'pname'`. -/
def c1net : Net := fun u =>
  if u = "V/5" then .resp 200 (some (.obj [("name", .str "vname"), ("modelId", .num 9)]))
  else if u = "M/9" then .resp 200 (some (.obj [("name", .str "pname"), ("id", .num 9)]))
  else .netErr

/-- A network whose every request raises. -/
def c6net_err : Net := fun _ => .netErr

/-- A network answering 301 with a parseable non-empty JSON body. -/
def c6net_301 : Net := fun _ => .resp 301 (some (.obj [("ok", .bool true)]))

/-- A concrete network for the C10 scenario: the models endpoint
answers 404 with a non-empty JSON error descriptor; every other URL
raises. -/
def c10net : Net := fun u =>
  if u = "M/7" then .resp 404 (some (.obj [("error", .str "not found")]))
  else .netErr

/-- The record normalized from the version-shaped input
`{"model": {}, "modelId": 0}`: its `parent_id` is set to the
(non-`None`) value `0`, which is falsy. -/
def c7fs : Dict := [("model", .obj []), ("modelId", .num 0)]

/-- A network on which every request raises, for the C5 scenario. -/
def c5net_err : Net := fun _ => .netErr

/-- A network answering every request with a truthy JSON object, for
the C5 scenario. -/
def c5net_ok : Net := fun _ => .resp 200 (some (.obj [("a", .num 1)]))

/-!
Helper lemmas about the embedding.
-/

theorem safe_get_broken (path : List Key) (j d : JSON) (h : pathBroken j path = true) :
    safe_get j path d = d := by
  induction path generalizing j with
  | nil => simp [pathBroken] at h
  | cons head rest ih =>
    cases head with
    | s k =>
      cases j with
      | obj fs =>
        simp only [pathBroken] at h
        simp only [safe_get]
        cases hl : dlookup k fs with
        | none => rfl
        | some v =>
          rw [hl] at h
          exact ih v h
      | null => rfl
      | bool b => rfl
      | num n => rfl
      | str s => rfl
      | arr xs => rfl
    | i n =>
      cases j with
      | arr xs =>
        simp only [pathBroken] at h
        simp only [safe_get]
        cases hl : xs[n]? with
        | none => rfl
        | some v =>
          rw [hl] at h
          exact ih v h
      | null => rfl
      | bool b => rfl
      | num n => rfl
      | str s => rfl
      | obj fs => rfl

theorem pathBroken_append (p q : List Key) (j : JSON) (h : pathBroken j p = true) :
    pathBroken j (p ++ q) = true := by
  induction p generalizing j with
  | nil => simp [pathBroken] at h
  | cons head rest ih =>
    cases head with
    | s k =>
      cases j with
      | obj fs =>
        simp only [pathBroken] at h ⊢
        cases hl : dlookup k fs with
        | none => rfl
        | some v =>
          rw [hl] at h
          exact ih v h
      | null => rfl
      | bool b => rfl
      | num n => rfl
      | str s => rfl
      | arr xs => rfl
    | i n =>
      cases j with
      | arr xs =>
        simp only [pathBroken] at h ⊢
        cases hl : xs[n]? with
        | none => rfl
        | some v =>
          rw [hl] at h
          exact ih v h
      | null => rfl
      | bool b => rfl
      | num n => rfl
      | str s => rfl
      | obj fs => rfl

theorem dgetD_not_has (fs : Dict) (k : String) (d : JSON) (h : dhas fs k = false) :
    dgetD fs k d = d := by
  unfold dgetD
  unfold dhas at h
  cases hl : dlookup k fs with
  | none => rfl
  | some v => rw [hl] at h; simp at h

theorem dgetD_lookup (fs : Dict) (k : String) (v d : JSON) (h : dlookup k fs = some v) :
    dgetD fs k d = v := by
  unfold dgetD
  rw [h]

theorem feedbacks_append (a b : List Event) : feedbacks (a ++ b) = feedbacks a ++ feedbacks b := by
  unfold feedbacks
  exact List.filterMap_append a b _

theorem dlookup_append (k : String) (a b : Dict) :
    dlookup k (a ++ b) = (dlookup k a).or (dlookup k b) := by
  induction a with
  | nil => simp [dlookup]
  | cons kv rest ih =>
    obtain ⟨k₁, v₁⟩ := kv
    simp only [List.cons_append, dlookup]
    by_cases hk : k₁ = k
    · simp [hk]
    · simp [hk, ih]

theorem dlookup_merge_map (k : String) (a b : Dict) :
    dlookup k (a.map (fun kv =>
      match dlookup kv.1 b with
      | some w => (kv.1, w)
      | none => kv)) =
    match dlookup k a with
    | none => none
    | some v =>
      some (match dlookup k b with
            | some w => w
            | none => v) := by
  induction a with
  | nil => simp [dlookup]
  | cons kv rest ih =>
    obtain ⟨k₁, v₁⟩ := kv
    by_cases hk : k₁ = k
    · subst hk
      cases hb : dlookup k₁ b with
      | none => simp [dlookup, hb]
      | some w => simp [dlookup, hb]
    · cases hb : dlookup k₁ b with
      | none => simp [dlookup, hb, hk, ih]
      | some w => simp [dlookup, hb, hk, ih]

theorem dlookup_filter_keep (k : String) (b : Dict) (P : String × JSON → Bool)
    (hP : ∀ kv : String × JSON, kv.1 = k → P kv = true) :
    dlookup k (b.filter P) = dlookup k b := by
  induction b with
  | nil => simp
  | cons kv rest ih =>
    obtain ⟨k₁, v₁⟩ := kv
    by_cases hk : k₁ = k
    · subst hk
      rw [List.filter_cons_of_pos (hP (k₁, v₁) rfl)]
      simp [dlookup]
    · cases hPkv : P (k₁, v₁) with
      | true =>
        rw [List.filter_cons_of_pos hPkv]
        simp [dlookup, hk, ih]
      | false =>
        rw [List.filter_cons_of_neg (by simp [hPkv])]
        simp [dlookup, hk, ih]

theorem dictMerge_parent_wins (a b : Dict) (k : String) (pv : JSON)
    (h : dlookup k b = some pv) :
    dlookup k (dictMerge a b) = some pv := by
  unfold dictMerge
  rw [dlookup_append, dlookup_merge_map]
  cases ha : dlookup k a with
  | some v => simp [h]
  | none =>
    simp only [Option.or]
    rw [dlookup_filter_keep k b _ ?_, h]
    intro kv hkv
    rw [hkv]
    simp [dhas, ha]

theorem make_request_some (net : Net) (u : String) (j : JSON)
    (h : (make_request net u).1 = some j) :
    make_request net u = (some j, []) := by
  unfold make_request at h ⊢
  cases hnu : net u with
  | netErr =>
    rw [hnu] at h
    simp at h
  | resp s b =>
    rw [hnu] at h
    dsimp only at h ⊢
    by_cases hs : s ≠ 404 ∧ 400 ≤ s ∧ s < 600
    · rw [if_pos hs] at h
      simp at h
    · rw [if_neg hs] at h ⊢
      cases b with
      | none => simp at h
      | some j₂ =>
        dsimp only at h ⊢
        rw [h]

theorem okFirst_some (j : JSON) (h : okFirst (some j) = true) :
    ∃ ffs rest, j = .arr (.obj ffs :: rest) := by
  cases j with
  | arr xs =>
    cases xs with
    | nil => simp [okFirst] at h
    | cons x rest =>
      cases x with
      | obj ffs => exact ⟨ffs, rest, rfl⟩
      | null => simp [okFirst] at h
      | bool b => simp [okFirst] at h
      | num n => simp [okFirst] at h
      | str s => simp [okFirst] at h
      | arr ys => simp [okFirst] at h
  | null => simp [okFirst] at h
  | bool b => simp [okFirst] at h
  | num n => simp [okFirst] at h
  | str s => simp [okFirst] at h
  | obj fs => simp [okFirst] at h

theorem version_summary_ok (v : JSON) (h : goodEntry v = true) :
    version_summary_of v = .ok (spec_version_summary v) := by
  cases v with
  | obj fs =>
    simp only [goodEntry, Bool.and_eq_true] at h
    obtain ⟨hf, hi⟩ := h
    rcases hfc : dlookup "files" fs with _ | jf
    · rcases hic : dlookup "images" fs with _ | ji
      · simp [version_summary_of, dgetD, hfc, hic, subscript0, pyget,
              spec_version_summary, jget, jfield, first_or_placeholder]
      · rw [hic] at hi
        obtain ⟨iffs, irest, rfl⟩ := okFirst_some ji hi
        simp [version_summary_of, dgetD, hfc, hic, subscript0, pyget,
              spec_version_summary, jget, jfield, first_or_placeholder]
    · rw [hfc] at hf
      obtain ⟨ffs, frest, rfl⟩ := okFirst_some jf hf
      rcases hic : dlookup "images" fs with _ | ji
      · simp [version_summary_of, dgetD, hfc, hic, subscript0, pyget,
              spec_version_summary, jget, jfield, first_or_placeholder]
      · rw [hic] at hi
        obtain ⟨iffs, irest, rfl⟩ := okFirst_some ji hi
        simp [version_summary_of, dgetD, hfc, hic, subscript0, pyget,
              spec_version_summary, jget, jfield, first_or_placeholder]
  | null => simp [goodEntry] at h
  | bool b => simp [goodEntry] at h
  | num n => simp [goodEntry] at h
  | str s => simp [goodEntry] at h
  | arr xs => simp [goodEntry] at h

theorem comprehend_good (vs : List JSON) (h : ∀ v ∈ vs, goodEntry v = true) :
    comprehend version_summary_of vs = .ok (vs.map spec_version_summary) := by
  induction vs with
  | nil => rfl
  | cons v rest ih =>
    have hv := h v (List.mem_cons_self v rest)
    have hrest : ∀ x ∈ rest, goodEntry x = true := fun x hx => h x (List.mem_cons_of_mem v hx)
    simp [comprehend, version_summary_ok v hv, ih hrest]

theorem process_version_shape (fs : Dict) (h : dhas fs "model" = true) :
    process_model_data (.obj fs) = .ok (mk_record fs []) := by
  simp [process_model_data, versions_of, h]

theorem process_model_shape (fs : Dict) (vs : List JSON)
    (h1 : dhas fs "model" = false)
    (h2 : dlookup "modelVersions" fs = some (.arr vs))
    (h3 : ∀ v ∈ vs, goodEntry v = true) :
    process_model_data (.obj fs) = .ok (mk_record fs (vs.map spec_version_summary)) := by
  simp [process_model_data, versions_of, h1, dgetD, h2, pyIterate, comprehend_good vs h3]

theorem process_no_versions_key (fs : Dict)
    (h1 : dhas fs "model" = false)
    (h2 : dlookup "modelVersions" fs = none) :
    process_model_data (.obj fs) = .ok (mk_record fs []) := by
  simp [process_model_data, versions_of, h1, dgetD, h2, pyIterate, comprehend]

theorem process_ok_record (j : JSON) (r : ModelRecord) (h : process_model_data j = .ok r) :
    ∃ fs versions, j = .obj fs ∧ versions_of fs = .ok versions ∧ r = mk_record fs versions := by
  cases j with
  | obj fs =>
    rcases hE : versions_of fs with e | versions
    · simp [process_model_data, hE] at h
    · simp only [process_model_data, hE, Except.ok.injEq] at h
      exact ⟨fs, versions, rfl, hE, h.symm⟩
  | null => simp [process_model_data] at h
  | bool b => simp [process_model_data] at h
  | num n => simp [process_model_data] at h
  | str s => simp [process_model_data] at h
  | arr xs => simp [process_model_data] at h

/-- C9: a `modelVersions` entry whose `files` key holds a present but
empty list makes the normalizer raise IndexError, while the same entry
with the key entirely absent gets the `[{}]` placeholder and succeeds. -/
theorem C9_present_empty_list_raises :
    process_model_data (.obj [("modelVersions", .arr [.obj [("files", .arr [])]])]) =
      .error .indexError ∧
    process_model_data (.obj [("modelVersions", .arr [.obj []])]) =
      .ok (mk_record [("modelVersions", .arr [.obj []])]
            [⟨.str "", .str "", .str "", .str "", .str "", .str ""⟩]) :=
  ⟨rfl, rfl⟩

/-- C4 counterexample: the version-shaped input `{"model": {}}` has no
`modelId` and no `model.name`, so `parent_id` and `parent_name` are both
`None`, refuting "both are set (non-None)" for every version-shaped
input. -/
theorem C4_counterexample :
    process_model_data (.obj [("model", .obj [])]) = .ok (mk_record [("model", .obj [])] []) ∧
    (mk_record [("model", .obj [])] []).parent_id = JSON.null ∧
    (mk_record [("model", .obj [])] []).parent_name = JSON.null :=
  ⟨rfl, rfl, rfl⟩

/-- C4 (amended): for every version-shaped input the normalizer
succeeds, `versions` is empty, `parent_id` is the top-level `modelId`
value defaulting to `None`, `parent_name` is the nested `model.name`
defaulting to `None`, and both are the present values when those keys
exist. -/
theorem C4_version_shape (fs : Dict) (h : dhas fs "model" = true) :
    process_model_data (.obj fs) = .ok (mk_record fs []) ∧
    (mk_record fs []).versions = [] ∧
    (mk_record fs []).parent_id = dgetD fs "modelId" .null ∧
    (mk_record fs []).parent_name = safe_get (.obj fs) [.s "model", .s "name"] .null ∧
    (∀ v, dlookup "modelId" fs = some v → (mk_record fs []).parent_id = v) ∧
    (∀ mfs v, dlookup "model" fs = some (.obj mfs) → dlookup "name" mfs = some v →
      (mk_record fs []).parent_name = v) := by
  refine ⟨process_version_shape fs h, rfl, ?_, ?_, ?_, ?_⟩
  · simp [mk_record, h]
  · simp [mk_record, h]
  · intro v hv
    simp [mk_record, h, dgetD, hv]
  · intro mfs v hm hn
    simp [mk_record, h, safe_get, hm, hn]

/-- C4 witness: the amended statement applied at a version-shaped input
carrying both `modelId` and `model.name`. -/
theorem C4_witness :
    dhas [("model", JSON.obj [("name", JSON.str "P")]), ("modelId", JSON.num 9)] "model" = true ∧
    process_model_data (.obj [("model", .obj [("name", .str "P")]), ("modelId", .num 9)]) =
      .ok (mk_record [("model", .obj [("name", .str "P")]), ("modelId", .num 9)] []) :=
  ⟨rfl, (C4_version_shape [("model", .obj [("name", .str "P")]), ("modelId", .num 9)] rfl).1⟩

/-- C8: a successfully normalized record never has both a non-empty
`versions` list and a non-`None` `parent_id`; the input `{}` shows that
neither holding is tolerated without an error. -/
theorem C8_exclusive :
    (∀ (j : JSON) (r : ModelRecord), process_model_data j = .ok r →
      r.versions = [] ∨ r.parent_id = JSON.null) ∧
    (process_model_data (.obj []) = .ok (mk_record [] []) ∧
      (mk_record [] []).versions = [] ∧ (mk_record [] []).parent_id = JSON.null) := by
  constructor
  · intro j r h
    obtain ⟨fs, versions, rfl, hV, rfl⟩ := process_ok_record j r h
    cases hm : dhas fs "model" with
    | true =>
      left
      simp [versions_of, hm] at hV
      simp [mk_record, ← hV]
    | false =>
      right
      simp [mk_record, hm]
  · exact ⟨rfl, rfl, rfl⟩

/-- C8 witness: the invariant applied at a concrete model-shaped
input. -/
theorem C8_witness :
    process_model_data (.obj [("id", JSON.num 3)]) = .ok (mk_record [("id", JSON.num 3)] []) ∧
    ((mk_record [("id", JSON.num 3)] []).versions = [] ∨
      (mk_record [("id", JSON.num 3)] []).parent_id = JSON.null) :=
  ⟨rfl, C8_exclusive.1 (.obj [("id", JSON.num 3)]) (mk_record [("id", JSON.num 3)] []) rfl⟩

/-- C3 counterexample: a model-shaped input with one `modelVersions`
entry whose `images` key is a present but empty list: the normalizer
raises IndexError instead of producing one VersionSummary, refuting the
claim for every model-shaped input. -/
theorem C3_counterexample :
    process_model_data (.obj [("modelVersions", .arr [.obj [("images", .arr [])]])]) =
      .error .indexError := rfl

/-- C3 (amended): for every model-shaped input whose `modelVersions`
entries are objects in which `files` and `images`, when present, are
non-empty lists headed by an object, the normalizer yields exactly one
VersionSummary per entry, in order, each built from the first file and
first image with the `{}` placeholder for absent lists. -/
theorem C3_versions_mapped (fs : Dict) (vs : List JSON)
    (h1 : dhas fs "model" = false)
    (h2 : dlookup "modelVersions" fs = some (.arr vs))
    (h3 : ∀ v ∈ vs, goodEntry v = true) :
    process_model_data (.obj fs) = .ok (mk_record fs (vs.map spec_version_summary)) ∧
    (mk_record fs (vs.map spec_version_summary)).versions = vs.map spec_version_summary ∧
    (vs.map spec_version_summary).length = vs.length := by
  exact ⟨process_model_shape fs vs h1 h2 h3, by simp [mk_record], by simp⟩

set_option maxRecDepth 4096

/-- C3 witness: the amended statement applied at a model-shaped input
with two entries, one carrying files and images, one carrying
neither. -/
theorem C3_witness :
    (∀ v ∈ [c3e1, c3e2], goodEntry v = true) ∧
    process_model_data (.obj c3fs) =
      .ok (mk_record c3fs ([c3e1, c3e2].map spec_version_summary)) :=
  ⟨by decide, (C3_versions_mapped c3fs [c3e1, c3e2] rfl rfl (by decide)).1⟩

/-- C2: missing keys never make the normalizer raise — any input whose
present `modelVersions` entries are well-shaped (in particular any input
missing arbitrarily many keys) normalizes successfully — and every
listed field falls back to its specified default when its lookup path is
broken at any depth. -/
theorem C2_missing_defaults :
    (∀ fs : Dict, entriesGood fs → ∃ r, process_model_data (.obj fs) = .ok r) ∧
    (∀ (fs : Dict) (r : ModelRecord), process_model_data (.obj fs) = .ok r →
      (dhas fs "description" = false → r.description = .str "") ∧
      (dhas fs "tags" = false → r.tags = .arr []) ∧
      (pathBroken (.obj fs) (if !(dhas fs "model") then [.s "modelVersions", .i 0, .s "trainedWords"] else [.s "trainedWords"]) = true →
        r.trainedWords = .str "None") ∧
      (pathBroken (.obj fs) (stats_path (dhas fs "model")) = true →
        r.metadata.stats = " downloads,  likes,  dislikes") ∧
      (pathBroken (.obj fs) (files_path (dhas fs "model") ++ [.s "sizeKB"]) = true →
        r.metadata.size = "") ∧
      (pathBroken (.obj fs) (files_path (dhas fs "model") ++ [.s "metadata", .s "format"]) = true →
        r.metadata.format = .str ".safetensors") ∧
      (pathBroken (.obj fs) (files_path (dhas fs "model") ++ [.s "name"]) = true →
        r.metadata.file = .str "") ∧
      (pathBroken (.obj fs) (if !(dhas fs "model") then [.s "modelVersions", .i 0, .s "images"] else [.s "images"]) = true →
        r.images = .arr [])) := by
  constructor
  · intro fs hg
    by_cases hm : dhas fs "model" = true
    · exact ⟨_, process_version_shape fs hm⟩
    · have hm' : dhas fs "model" = false := by simpa using hm
      rcases hg with hM | hRest
      · exact absurd hM hm
      · rcases hmv : dlookup "modelVersions" fs with _ | jv
        · exact ⟨_, process_no_versions_key fs hm' hmv⟩
        · rw [hmv] at hRest
          cases jv with
          | arr vs => exact ⟨_, process_model_shape fs vs hm' hmv hRest⟩
          | null => exact hRest.elim
          | bool b => exact hRest.elim
          | num n => exact hRest.elim
          | str s => exact hRest.elim
          | obj o => exact hRest.elim
  · intro fs r h
    rcases hE : versions_of fs with e | versions
    · simp [process_model_data, hE] at h
    · simp only [process_model_data, hE, Except.ok.injEq] at h
      subst h
      refine ⟨?_, ?_, ?_, ?_, ?_, ?_, ?_, ?_⟩
      · intro hb
        simp only [mk_record]
        exact dgetD_not_has fs "description" _ hb
      · intro hb
        simp only [mk_record]
        exact dgetD_not_has fs "tags" _ hb
      · intro hb
        simp only [mk_record]
        exact safe_get_broken _ _ _ hb
      · intro hb
        simp only [mk_record, get_metadata]
        rw [safe_get_broken _ _ _ (pathBroken_append _ [.s "downloadCount"] _ hb),
            safe_get_broken _ _ _ (pathBroken_append _ [.s "thumbsUpCount"] _ hb),
            safe_get_broken _ _ _ (pathBroken_append _ [.s "thumbsDownCount"] _ hb)]
        rfl
      · intro hb
        simp only [mk_record, get_metadata]
        rw [safe_get_broken _ _ _ hb]
        rfl
      · intro hb
        simp only [mk_record, get_metadata]
        exact safe_get_broken _ _ _ hb
      · intro hb
        simp only [mk_record, get_metadata]
        exact safe_get_broken _ _ _ hb
      · intro hb
        simp only [mk_record]
        exact safe_get_broken _ _ _ hb

/-- C2 witness: the empty object normalizes successfully and carries
every default. -/
theorem C2_witness :
    entriesGood [] ∧
    (∃ r, process_model_data (.obj []) = .ok r) ∧
    (mk_record [] []).description = .str "" ∧
    (mk_record [] []).metadata.stats = " downloads,  likes,  dislikes" :=
  ⟨Or.inr trivial, C2_missing_defaults.1 [] (Or.inr trivial),
   (C2_missing_defaults.2 [] (mk_record [] []) rfl).1 rfl,
   (C2_missing_defaults.2 [] (mk_record [] []) rfl).2.2.2.1 rfl⟩

/-- C1 (amended): when the versions endpoint returns a truthy dict body
and the models endpoint for its `modelId` returns a truthy dict body,
the fallback returns the shallow merge `{**version, **parent}` — and on
every key the parent-model body also binds, the merged result carries
the PARENT body's value (the parent dict is spread second). -/
theorem C1_fallback_merge_parent_wins (net : Net) (vurl murl : String) (model_id : Int)
    (vfs pfs : Dict)
    (h1 : net (vurl ++ "/" ++ toString model_id) = .resp 200 (some (.obj vfs)))
    (h2 : vfs ≠ [])
    (h3 : net (murl ++ "/" ++ pyStr (dgetD vfs "modelId" .null)) = .resp 200 (some (.obj pfs)))
    (h4 : pfs ≠ []) :
    fetch_version_data net vurl murl model_id = (.ok (some (.obj (dictMerge vfs pfs))), []) ∧
    (∀ (k : String) (pv : JSON), dlookup k pfs = some pv →
      dlookup k (dictMerge vfs pfs) = some pv) := by
  constructor
  · have m1 : make_request net (vurl ++ "/" ++ toString model_id) = (some (.obj vfs), []) := by
      unfold make_request
      rw [h1]
      simp
    have m2 : make_request net (murl ++ "/" ++ pyStr (dgetD vfs "modelId" .null)) = (some (.obj pfs), []) := by
      unfold make_request
      rw [h3]
      simp
    have t1 : (JSON.obj vfs).truthy = true := by
      cases vfs with
      | nil => exact absurd rfl h2
      | cons a l => rfl
    have t2 : (JSON.obj pfs).truthy = true := by
      cases pfs with
      | nil => exact absurd rfl h4
      | cons a l => rfl
    simp [fetch_version_data, m1, m2, t1, t2]
  · intro k pv hk
    exact dictMerge_parent_wins vfs pfs k pv hk

/-- C1 counterexample: the version body carries `name = 'vname'` but the
merged result carries the parent's `'pname'`, refuting "version fields
win on every key collision". -/
theorem C1_counterexample :
    dlookup "name" [("name", JSON.str "vname"), ("modelId", JSON.num 9)] = some (.str "vname") ∧
    fetch_version_data c1net "V" "M" 5 =
      (.ok (some (.obj [("name", .str "pname"), ("modelId", .num 9), ("id", .num 9)])), []) ∧
    ("pname" : String) ≠ "vname" :=
  ⟨rfl, rfl, by decide⟩

/-- C1 witness: the amended statement applied at the concrete network
`c1net`. -/
theorem C1_witness :
    c1net ("V" ++ "/" ++ toString (5 : Int)) =
      .resp 200 (some (.obj [("name", JSON.str "vname"), ("modelId", JSON.num 9)])) ∧
    (fetch_version_data c1net "V" "M" 5 =
      (.ok (some (.obj (dictMerge [("name", JSON.str "vname"), ("modelId", JSON.num 9)]
                                  [("name", JSON.str "pname"), ("id", JSON.num 9)]))), []) ∧
     ∀ (k : String) (pv : JSON),
       dlookup k [("name", JSON.str "pname"), ("id", JSON.num 9)] = some pv →
       dlookup k (dictMerge [("name", JSON.str "vname"), ("modelId", JSON.num 9)]
                            [("name", JSON.str "pname"), ("id", JSON.num 9)]) = some pv) :=
  ⟨rfl, C1_fallback_merge_parent_wins c1net "V" "M" 5
    [("name", JSON.str "vname"), ("modelId", JSON.num 9)]
    [("name", JSON.str "pname"), ("id", JSON.num 9)]
    rfl (List.cons_ne_nil _ _) rfl (List.cons_ne_nil _ _)⟩

/-- C6 (amended): `make_request` returns no data and emits an error
line naming the failing URL whenever the client raises, the status is a
4xx/5xx other than 404, or the body is malformed; a 404 body is passed
through to JSON parsing and returned when it parses.  The function is
total: no failure propagates as an exception. -/
theorem C6_request_failures (net : Net) (url : String) :
    (net url = .netErr →
      make_request net url = (none, [.feedback (request_fail_msg url "ConnectionError") "error"])) ∧
    (∀ (s : Nat) (b : Option JSON), net url = .resp s b → 400 ≤ s → s < 600 → s ≠ 404 →
      make_request net url = (none, [.feedback (request_fail_msg url ("HTTPError " ++ toString s)) "error"])) ∧
    (∀ s : Nat, net url = .resp s none → ¬(400 ≤ s ∧ s < 600 ∧ s ≠ 404) →
      make_request net url = (none, [.feedback (request_fail_msg url "JSONDecodeError") "error"])) ∧
    (∀ j : JSON, net url = .resp 404 (some j) → make_request net url = (some j, [])) := by
  refine ⟨?_, ?_, ?_, ?_⟩
  · intro h
    unfold make_request
    rw [h]
  · intro s b h h4 h6 hn4
    unfold make_request
    rw [h]
    dsimp only
    rw [if_pos ⟨hn4, h4, h6⟩]
  · intro s h hno
    unfold make_request
    rw [h]
    dsimp only
    rw [if_neg (by tauto)]
  · intro j h
    unfold make_request
    rw [h]
    dsimp only
    rw [if_neg (by simp)]

/-- C6 counterexample: a 301 response — a non-2xx status other than
404 — with a parseable body is returned as data with no warning,
because `raise_for_status` only raises for 4xx/5xx. -/
theorem C6_counterexample :
    c6net_301 "u" = .resp 301 (some (.obj [("ok", JSON.bool true)])) ∧
    make_request c6net_301 "u" = (some (.obj [("ok", JSON.bool true)]), []) ∧
    (301 ≠ 404 ∧ ¬(200 ≤ 301 ∧ 301 < 300)) :=
  ⟨rfl, rfl, by decide⟩

/-- C6 witness: the amended statement applied to a connection
failure. -/
theorem C6_witness :
    c6net_err "w" = ReqResult.netErr ∧
    make_request c6net_err "w" = (none, [.feedback (request_fail_msg "w" "ConnectionError") "error"]) :=
  ⟨rfl, (C6_request_failures c6net_err "w").1 rfl⟩

/-- C10: whenever the first (models-endpoint) fetch yields a truthy
JSON value — in particular a 404 response whose body parses to a
non-empty object — `get_model_details` returns its normalization and
never consults the network again (the result is a function of that body
alone, independent of the versions endpoint). -/
theorem C10_first_fetch_short_circuits :
    (∀ (net : Net) (murl vurl : String) (model_id : Int) (j : JSON),
      model_id ≠ 0 →
      (make_request net (murl ++ "/" ++ toString model_id)).1 = some j →
      j.truthy = true →
      get_model_details net murl vurl model_id =
        ((match process_model_data j with
          | .ok r => .ok (some r)
          | .error e => .error e), [])) ∧
    (∀ (net : Net) (murl vurl : String) (model_id : Int) (fs : Dict),
      model_id ≠ 0 →
      net (murl ++ "/" ++ toString model_id) = .resp 404 (some (.obj fs)) →
      fs ≠ [] →
      get_model_details net murl vurl model_id =
        ((match process_model_data (.obj fs) with
          | .ok r => .ok (some r)
          | .error e => .error e), [])) := by
  have main : ∀ (net : Net) (murl vurl : String) (model_id : Int) (j : JSON),
      model_id ≠ 0 →
      (make_request net (murl ++ "/" ++ toString model_id)).1 = some j →
      j.truthy = true →
      get_model_details net murl vurl model_id =
        ((match process_model_data j with
          | .ok r => .ok (some r)
          | .error e => .error e), []) := by
    intro net murl vurl model_id j h0 h1 ht
    have m1 := make_request_some net (murl ++ "/" ++ toString model_id) j h1
    unfold get_model_details fetch_model_data
    rw [if_neg h0]
    simp only [m1, optTruthy, ht]
    rcases hp : process_model_data j with e | r <;> simp [hp, ht]
  refine ⟨main, ?_⟩
  intro net murl vurl model_id fs h0 h2 hne
  have h1 : (make_request net (murl ++ "/" ++ toString model_id)).1 = some (.obj fs) := by
    unfold make_request
    rw [h2]
    dsimp only
    rw [if_neg (by simp)]
  have ht : (JSON.obj fs).truthy = true := by
    cases fs with
    | nil => exact absurd rfl hne
    | cons a l => rfl
  exact main net murl vurl model_id (.obj fs) h0 h1 ht

/-- C10 witness: the statement applied at the concrete network
`c10net`. -/
theorem C10_witness :
    c10net ("M" ++ "/" ++ toString (7 : Int)) = .resp 404 (some (.obj [("error", JSON.str "not found")])) ∧
    get_model_details c10net "M" "V" 7 =
      ((match process_model_data (.obj [("error", JSON.str "not found")]) with
        | .ok r => .ok (some r)
        | .error e => .error e), []) :=
  ⟨rfl, C10_first_fetch_short_circuits.2 c10net "M" "V" 7 [("error", JSON.str "not found")]
    (by decide) rfl (List.cons_ne_nil _ _)⟩

theorem feedbacks_desc_table (md : ModelRecord) (desc : Bool) (descEvs : List Event)
    (h : desc_table_events md desc = .ok descEvs) : feedbacks descEvs = [] := by
  cases desc with
  | false =>
    injection h with h2
    subst h2
    rfl
  | true =>
    unfold desc_table_events at h
    rcases hd : md.description with _ | b | n | s | xs | fs <;> rw [hd] at h
    · exact absurd h (by simp)
    · exact absurd h (by simp)
    · exact absurd h (by simp)
    · injection h with h2
      subst h2
      rfl
    · exact absurd h (by simp)
    · exact absurd h (by simp)

theorem feedbacks_version_table (md : ModelRecord) :
    feedbacks (version_table_events md) = [] := by
  unfold version_table_events
  by_cases hv : md.versions.isEmpty <;> simp [hv, feedbacks]

theorem feedbacks_image_table (md : ModelRecord) (images : Bool) (imgEvs : List Event)
    (h : image_table_events md images = .ok imgEvs) : feedbacks imgEvs = [] := by
  unfold image_table_events at h
  by_cases hc : images && md.images.truthy
  · rw [if_pos hc] at h
    rcases hit : pyIterate md.images with e | ims <;> rw [hit] at h <;> dsimp only at h
    · simp at h
    · rcases hcp : comprehend image_row ims with e | rows <;> rw [hcp] at h <;> dsimp only at h
      · simp at h
      · injection h with h2
        subst h2
        rfl
  · rw [if_neg hc] at h
    injection h with h2
    subst h2
    rfl

theorem feedbacks_warning_events (md : ModelRecord) :
    feedbacks (warning_events md) =
      (if md.parent_id.truthy then [(variant_msg md, "warning")] else []) ++
      (if !md.images.truthy then [(no_images_msg md, "warning")] else []) ++
      (if md.versions.isEmpty && !md.parent_id.truthy then [(no_versions_msg md, "warning")] else []) := by
  by_cases h1 : md.parent_id.truthy <;> by_cases h2 : md.images.truthy <;>
    by_cases h3 : md.versions.isEmpty <;>
    simp [warning_events, feedbacks, h1, h2, h3]

/-- C7 (amended): whenever the presenter completes, the feedback lines
it emitted are exactly: the variant warning when `parent_id` is truthy,
the no-images warning when `images` is falsy, and the no-versions
warning when `versions` is empty and `parent_id` falsy — independent
conditions that can co-occur. -/
theorem C7_warning_conditions (md : ModelRecord) (desc images : Bool) (evs : List Event)
    (h : print_model_details md desc images = .ok evs) :
    feedbacks evs =
      (if md.parent_id.truthy then [(variant_msg md, "warning")] else []) ++
      (if !md.images.truthy then [(no_images_msg md, "warning")] else []) ++
      (if md.versions.isEmpty && !md.parent_id.truthy then [(no_versions_msg md, "warning")] else []) := by
  unfold print_model_details at h
  rcases hd : desc_table_events md desc with e | descEvs
  · rw [hd] at h; simp at h
  · rw [hd] at h
    rcases hi : image_table_events md images with e | imgEvs
    · rw [hi] at h; simp at h
    · rw [hi] at h
      simp only [Except.ok.injEq] at h
      subst h
      rw [feedbacks_append, feedbacks_append, feedbacks_append, feedbacks_append,
          feedbacks_desc_table md desc descEvs hd,
          feedbacks_image_table md images imgEvs hi,
          feedbacks_version_table md,
          feedbacks_warning_events md]
      rfl

/-- C7 witness: the amended statement applied at the record normalized
from the empty object, with both display flags off: the no-images and
no-versions warnings co-occur and the variant warning is absent. -/
theorem C7_witness :
    ∃ evs, print_model_details (mk_record [] []) false false = .ok evs ∧
      feedbacks evs =
        (if (mk_record [] []).parent_id.truthy then [(variant_msg (mk_record [] []), "warning")] else []) ++
        (if !(mk_record [] []).images.truthy then [(no_images_msg (mk_record [] []), "warning")] else []) ++
        (if (mk_record [] []).versions.isEmpty && !(mk_record [] []).parent_id.truthy then [(no_versions_msg (mk_record [] []), "warning")] else []) :=
  ⟨_, rfl, C7_warning_conditions (mk_record [] []) false false _ rfl⟩

/-- C7 counterexample: on a record whose `parent_id` is the set value
`0`, the presenter emits no variant warning (the truthiness test fails)
and does emit the no-versions warning — refuting both "the variant
warning fires exactly when `parent_id` is set" and "the no-versions
warning fires exactly when neither versions nor `parent_id` is
present". -/
theorem C7_counterexample :
    process_model_data (.obj c7fs) = .ok (mk_record c7fs []) ∧
    (mk_record c7fs []).parent_id = JSON.num 0 ∧
    (match print_model_details (mk_record c7fs []) false false with
     | .ok evs => feedbacks evs
     | .error _ => []) =
      [(no_images_msg (mk_record c7fs []), "warning"),
       (no_versions_msg (mk_record c7fs []), "warning")] ∧
    (variant_msg (mk_record c7fs []), "warning") ∉
      [(no_images_msg (mk_record c7fs []), "warning"),
       (no_versions_msg (mk_record c7fs []), "warning")] :=
  ⟨rfl, rfl, rfl, by decide⟩

/-- C5 (amended): an identifier that does not parse as a Python integer
is rejected with the input-error message, with output independent of
the network (no network call is made) and a clean return; the
identifier `"0"` parses but is rejected by the zero check, again
network-independently.  (A negative identifier, by contrast, is passed
through to the network lookup.) -/
theorem C5_invalid_identifier (net : Net) (identifier : String) (desc images : Bool)
    (murl vurl : String) (h : pyIntParse identifier = none) :
    get_model_details_cli net identifier desc images murl vurl =
      (.ok (), [.feedback "Invalid model ID. Please enter a valid number." "error"]) ∧
    (∀ net₂ : Net, get_model_details_cli net₂ identifier desc images murl vurl =
      get_model_details_cli net identifier desc images murl vurl) ∧
    (∀ (net₀ : Net) (d i : Bool) (m v : String),
      get_model_details_cli net₀ "0" d i m v =
        (.ok (), [.feedback "Please provide a valid model ID." "error",
                  .feedback "No model found with ID: 0" "error"])) := by
  refine ⟨?_, ?_, ?_⟩
  · unfold get_model_details_cli
    rw [h]
  · intro net₂
    unfold get_model_details_cli
    rw [h]
  · intro net₀ d i m v
    rfl

/-- C5 counterexample: the identifier `"-5"` parses as the integer `-5`,
which is not positive, yet the operation emits no input-error message
and does perform network calls: its output names both endpoint URLs and
changes when the network's behaviour changes. -/
theorem C5_counterexample :
    pyIntParse "-5" = some (-5) ∧
    feedbacks (get_model_details_cli c5net_err "-5" false false "m" "v").2 =
      [(request_fail_msg "m/-5" "ConnectionError", "error"),
       (request_fail_msg "v/-5" "ConnectionError", "error"),
       ("No model found with ID: -5", "error")] ∧
    feedbacks (get_model_details_cli c5net_ok "-5" false false "m" "v").2 ≠
      feedbacks (get_model_details_cli c5net_err "-5" false false "m" "v").2 ∧
    ("Invalid model ID. Please enter a valid number.", "error") ∉
      feedbacks (get_model_details_cli c5net_err "-5" false false "m" "v").2 ∧
    ("Invalid model ID. Please enter a valid number.", "error") ∉
      feedbacks (get_model_details_cli c5net_ok "-5" false false "m" "v").2 :=
  ⟨rfl, rfl, by decide, by decide, by decide⟩

/-- C5 witness: the amended statement applied at the non-numeric
identifier `"abc"`. -/
theorem C5_witness :
    pyIntParse "abc" = none ∧
    get_model_details_cli c5net_err "abc" true true "m" "v" =
      (.ok (), [.feedback "Invalid model ID. Please enter a valid number." "error"]) :=
  ⟨rfl, (C5_invalid_identifier c5net_err "abc" true true "m" "v" rfl).1⟩

end Civitai
